import Mathlib

/-!
Verification development for the orbital-nexus-sim client-side
reconciliation engine.  The definitions below are a shallow embedding of
the TypeScript source: numbers are modelled as rationals, JS objects as
structures, `null`/`undefined` as `Option`, and the stateful React hooks
as explicit state-passing functions.
-/

namespace OrbitalNexus

/-! ## Data model (src/hooks/useOrbitalTracking.ts interfaces) -/

/-- Model of `ISSPosition` from useOrbitalTracking.ts. -/
structure ISSPosition where
  latitude : ℚ
  longitude : ℚ
  altitude_km : ℚ
  velocity_kmps : ℚ
deriving DecidableEq, Repr

/-- Model of `OrbitalPathPoint` from useOrbitalTracking.ts. -/
structure OrbitalPathPoint where
  lat : ℚ
  lon : ℚ
  alt : ℚ
deriving DecidableEq, Repr

/-- Model of `LookAngles` from useOrbitalTracking.ts. -/
structure LookAngles where
  azimuth : ℚ
  elevation : ℚ
  range_km : ℚ
  is_visible : Bool
deriving DecidableEq, Repr

/-- Model of `PassWindow` from useOrbitalTracking.ts. -/
structure PassWindow where
  aos_time : Option String
  los_time : Option String
  duration_minutes : ℚ
  is_in_pass : Bool
deriving DecidableEq, Repr

/-- Model of `StationData` from useOrbitalTracking.ts. -/
structure StationData where
  id : String
  name : String
  lat : ℚ
  lon : ℚ
  look_angles : LookAngles
  is_visible : Bool
  next_pass_minutes : ℚ
  next_pass_time : Option String
  pass_window : Option PassWindow
deriving DecidableEq, Repr

/-- Model of `OrbitalParameters` from useOrbitalTracking.ts. -/
structure OrbitalParameters where
  active_station : String
  latitude : ℚ
  longitude : ℚ
  altitude_km : ℚ
  velocity_kmps : ℚ
  azimuth : ℚ
  elevation : ℚ
  range_km : ℚ
  next_pass_time : Option String
  next_pass_minutes : ℚ
  aos_time : Option String
  los_time : Option String
  pass_duration_minutes : ℚ
  is_in_pass : Bool
deriving DecidableEq, Repr

/-- The `connection_state` field of `LinkStatus`. -/
inductive ConnectionState where
  | ACQUIRED
  | DEGRADED
  | IDLE
deriving DecidableEq, Repr

/-- Model of `LinkStatus` from useOrbitalTracking.ts. -/
structure LinkStatus where
  signal_strength_dbm : ℚ
  connection_state : ConnectionState
  latency_ms : ℚ
  doppler_shift_khz : ℚ
  snr_db : ℚ
  range_km : ℚ
deriving DecidableEq, Repr

/-- Model of `LinkBudgetHistoryPoint` from useOrbitalTracking.ts. -/
structure LinkBudgetHistoryPoint where
  timestamp : String
  snr_db : ℚ
  signal_strength_dbm : ℚ
deriving DecidableEq, Repr

/-- The `priority` field of `DTNBundle`. -/
inductive Priority where
  | EXPEDITED
  | NORMAL
  | BULK
deriving DecidableEq, Repr

/-- The `status` field of `DTNBundle`. -/
inductive BundleStatus where
  | QUEUED
  | TRANSMITTING
  | DELIVERED
  | FORWARDED
  | EXPIRED
deriving DecidableEq, Repr

/-- Model of `DTNBundle` from useOrbitalTracking.ts. -/
structure DTNBundle where
  bundle_id : String
  bundle_id_short : String
  source_station : String
  destination_station : String
  payload : String
  priority : Priority
  status : BundleStatus
  created_at : String
  ttl_hours : ℚ
  current_custodian : String
  forwarded_to : Option String
  delivered_at : Option String
  hops : List String
  age_seconds : ℚ
deriving DecidableEq, Repr

/-- The `ack_type` field of `CustodyAck`. -/
inductive AckType where
  | custody_accepted
  | delivered
deriving DecidableEq, Repr

/-- Model of `CustodyAck` from useOrbitalTracking.ts. -/
structure CustodyAck where
  bundle_id : String
  bundle_id_short : String
  from_station : String
  to_station : String
  ack_type : AckType
  timestamp : String
deriving DecidableEq, Repr

/-- Model of `OrbitalData` from useOrbitalTracking.ts.  The `dtn_queues`
`Record<string, DTNBundle[]>` JS object is modelled as an association
list of (station id, queue) pairs in key order. -/
structure OrbitalData where
  timestamp : String
  iss_position : ISSPosition
  orbital_path : List OrbitalPathPoint
  stations : List StationData
  active_station_id : Option String
  visible_stations_count : ℕ
  min_elevation : ℚ
  orbital_parameters : Option OrbitalParameters
  link_status : Option LinkStatus
  link_budget_history : List LinkBudgetHistoryPoint
  dtn_queues : List (String × List DTNBundle)
  custody_acks : List CustodyAck
deriving DecidableEq, Repr

/-! ## Telemetry store (src/hooks/useOrbitalTracking.ts, effect on
`lastMessage`) -/

/-- An inbound frame after JSON parsing, discriminated by its `type`
tag as in the `useOrbitalTracking` effect: `"orbital_update"` frames
carry a full `OrbitalData` snapshot, `"connection"` frames are
informational only, and any other tag is ignored. -/
inductive Frame where
  | connection
  | orbitalUpdate (data : OrbitalData)
  | other (tag : String)
deriving DecidableEq, Repr

/-- The store update performed by the `useOrbitalTracking` effect: an
`orbital_update` frame replaces the whole `orbitalData` state
(`setOrbitalData(lastMessage)`); a `connection` frame is only logged;
anything else leaves the state alone. -/
def mergeFrame (cur : Option OrbitalData) (f : Frame) : Option OrbitalData :=
  match f with
  | Frame.orbitalUpdate d => some d
  | Frame.connection => cur
  | Frame.other _ => cur

/-- Helper for `Object.values(d.dtn_queues).flat()` as used by the dashboard
components to enumerate every bundle in the snapshot. -/
def allBundles (d : OrbitalData) : List DTNBundle :=
  (d.dtn_queues.map Prod.snd).flatten

/-- Look a bundle up in a snapshot by its `bundle_id`. -/
def findBundle (d : OrbitalData) (id : String) : Option DTNBundle :=
  (allBundles d).find? (fun b => b.bundle_id == id)

/-- Status of a bundle as stored in an (optional) snapshot. -/
def storedStatus (s : Option OrbitalData) (id : String) : Option BundleStatus :=
  (s.bind (fun d => findBundle d id)).map DTNBundle.status

/-- A template snapshot used to build concrete test inputs; every list
is empty and every optional field is `none`. -/
def emptySnapshot : OrbitalData where
  timestamp := "2025-01-01T00:00:00Z"
  iss_position := { latitude := 0, longitude := 0, altitude_km := 408, velocity_kmps := 7.66 }
  orbital_path := []
  stations := []
  active_station_id := none
  visible_stations_count := 0
  min_elevation := 10
  orbital_parameters := none
  link_status := none
  link_budget_history := []
  dtn_queues := []
  custody_acks := []

/-- A bundle that has reached the terminal `DELIVERED` state with hops
toronto → london. -/
def bundleDelivered : DTNBundle where
  bundle_id := "b1"
  bundle_id_short := "b1"
  source_station := "toronto"
  destination_station := "ISS"
  payload := "ping"
  priority := Priority.NORMAL
  status := BundleStatus.DELIVERED
  created_at := "2025-01-01T00:00:00Z"
  ttl_hours := 24
  current_custodian := "london"
  forwarded_to := none
  delivered_at := some "2025-01-01T00:05:00Z"
  hops := ["toronto", "london"]
  age_seconds := 300

/-- The same bundle as reported by a later frame that (invalidly, per
the §4.4 table) moves it back to `QUEUED` with fresh custody data. -/
def bundleRequeued : DTNBundle :=
  { bundleDelivered with
      status := BundleStatus.QUEUED
      current_custodian := "toronto"
      delivered_at := none
      hops := ["toronto"] }

/-- Snapshot holding the delivered bundle. -/
def snapDelivered : OrbitalData :=
  { emptySnapshot with dtn_queues := [("london", [bundleDelivered])] }

/-- Frame payload reporting the invalid `DELIVERED → QUEUED` transition. -/
def snapRequeued : OrbitalData :=
  { emptySnapshot with dtn_queues := [("toronto", [bundleRequeued])] }

/-! ## Handoff detector (src/pages/Index.tsx, effect on orbitalData) -/

/-- One step of the handoff-detection effect in `Index`: given the
current `(activeStationId, handoffCount)` state and the merged frame's
`active_station_id`, the effect increments the counter and adopts the
new id exactly when the reported id is truthy (non-null, non-empty) and
differs from the current one. -/
def handoffStep (st : String × ℕ) (newId : Option String) : String × ℕ :=
  match newId with
  | none => st
  | some s => if s ≠ "" ∧ s ≠ st.1 then (s, st.2 + 1) else st

/-- Folding the handoff effect over a sequence of merged frames'
`active_station_id` values. -/
def runHandoffs (init : String × ℕ) (frames : List (Option String)) : String × ℕ :=
  frames.foldl handoffStep init

/-! ## Throughput estimator
(src/components/analytics/TrafficFlowMonitor.tsx, bandwidth effect) -/

/-- The bandwidth-calculation effect of `TrafficFlowMonitor`.  `ru` and
`rd` stand for the two `Math.random()` samples (each in `[0, 1)`) used
for the uplink and downlink jitter terms.  Missing link status or
`IDLE` yields `(0, 0)`; `ACQUIRED` and `DEGRADED` use
`Math.min(..., 1)` factors (no lower clamp) and floor the jittered
rates at 0 with `Math.max(0, ...)`. -/
def computeBandwidth (ls : Option LinkStatus) (ru rd : ℚ) : ℚ × ℚ :=
  match ls with
  | none => (0, 0)
  | some l =>
    match l.connection_state with
    | ConnectionState.IDLE => (0, 0)
    | ConnectionState.ACQUIRED =>
        (max 0 (1.2 + min ((l.snr_db - 10) / 30) 1 * 8.8 + (ru - 0.5) * 0.5),
         max 0 (3 + min ((l.snr_db - 10) / 30) 1 * 22 + (rd - 0.5) * 1.5))
    | ConnectionState.DEGRADED =>
        (max 0 (0.3 + min ((l.snr_db - 3) / 7) 1 * 0.9 + (ru - 0.5) * 0.3),
         max 0 (0.8 + min ((l.snr_db - 3) / 7) 1 * 2.2 + (rd - 0.5) * 0.8))

/-- Modelled from the spec's words (§4.5), for comparison with the
source: the `ACQUIRED` SNR factor *clamped both below at 0 and above
at 1*.  The source (`TrafficFlowMonitor`) only applies the upper
clamp. -/
def specClampedFactorAcquired (snr : ℚ) : ℚ :=
  min (max ((snr - 10) / 30) 0) 1

/-- An `ACQUIRED` link status with a deeply negative SNR, used to
separate the source's factor from the spec's clamped factor. -/
def lsNegSnr : LinkStatus where
  signal_strength_dbm := -120
  connection_state := ConnectionState.ACQUIRED
  latency_ms := 700
  doppler_shift_khz := 0
  snr_db := -50
  range_km := 40000

/-- An `ACQUIRED` link status with SNR 25 dB (the spec's worked
example). -/
def lsAcquired25 : LinkStatus where
  signal_strength_dbm := -70
  connection_state := ConnectionState.ACQUIRED
  latency_ms := 50
  doppler_shift_khz := 2
  snr_db := 25
  range_km := 1200

/-! ## Rolling window buffers
(src/components/analytics/TrafficFlowMonitor.tsx signalHistory update;
SkyView trail buffer) -/

variable {α : Type*}

/-- JS `l.slice(-N)`: the last `N` elements of `l` (all of `l` when it
is shorter than `N`). -/
def sliceLast (N : ℕ) (l : List α) : List α :=
  l.drop (l.length - N)

/-- The SkyView trail update `[...prev, pt].slice(-10)`, generalised
over the capacity `N`: append the new sample and keep only the last `N`
entries. -/
def rollPush (N : ℕ) (buf : List α) (x : α) : List α :=
  sliceLast N (buf ++ [x])

/-- The `TrafficFlowMonitor` signal-history update
`[...updated[station.id].slice(1), station.is_visible]`: shift the
oldest sample out and append the new one (the history is pre-filled to
its capacity, so its length is invariant). -/
def shiftPush (buf : List α) (x : α) : List α :=
  buf.drop 1 ++ [x]

/-! ## Uptime calculation
(src/components/analytics/TrafficFlowMonitor.tsx, calculateUptime) -/

/-- JS `Math.round`: round to the nearest integer, ties toward
positive infinity. -/
def jsRound (q : ℚ) : ℤ :=
  ⌊q + 1/2⌋

/-- Model of `calculateUptime` from `TrafficFlowMonitor`:
`Math.round((history.filter(v => v).length / history.length) * 100)`. -/
def calculateUptime (history : List Bool) : ℤ :=
  jsRound (((history.filter id).length : ℚ) / (history.length : ℚ) * 100)

/-- A 1800-slot visibility history with exactly 9 `true` entries. -/
def history9 : List Bool :=
  List.replicate 9 true ++ List.replicate 1791 false

/-! ## Connection manager (src/hooks/useWebSocket.ts) -/

/-- The `useWebSocket` hook's React state together with the socket's
liveness, as observed by the message handler. -/
structure WSState where
  isConnected : Bool
  connectionError : Option String
  lastMessage : Option Frame
  socketOpen : Bool
deriving DecidableEq, Repr

/-- The `ws.onmessage` handler: `JSON.parse` (modelled by the `parse`
argument, `none` meaning the parse threw) inside a try/catch.  On
success the parsed frame becomes `lastMessage`; on failure the error is
only logged and the state is untouched — the handler never closes the
socket and never rethrows. -/
def onmessage (parse : String → Option Frame) (st : WSState) (raw : String) : WSState :=
  match parse raw with
  | some d => { st with lastMessage := some d }
  | none => st

/-- The snapshot the `useOrbitalTracking` effect derives from the
current snapshot and `lastMessage` (`if (lastMessage) { ... }`). -/
def snapshotOf (snap : Option OrbitalData) (m : Option Frame) : Option OrbitalData :=
  match m with
  | some f => mergeFrame snap f
  | none => snap

/-- A concrete hook state used as a witness input. -/
def stExample : WSState where
  isConnected := true
  connectionError := none
  lastMessage := some Frame.connection
  socketOpen := true

/-- The `WebSocket.readyState` values. -/
inductive ReadyState where
  | CONNECTING
  | OPEN
  | CLOSING
  | CLOSED
deriving DecidableEq, Repr

/-- A WebSocket as `sendMessage` sees it: its ready state and the
messages sent on it so far. -/
structure WebSocketConn where
  readyState : ReadyState
  sent : List String
deriving DecidableEq, Repr

/-- The hook's `sendMessage` callback: sends only when a socket exists
(`wsRef.current`) and its `readyState` is `OPEN`; otherwise it does
nothing at all (no send, no queueing, no error). -/
def sendMessage (ws : Option WebSocketConn) (m : String) : Option WebSocketConn :=
  match ws with
  | some w =>
      if w.readyState = ReadyState.OPEN then
        some { w with sent := w.sent ++ [m] }
      else some w
  | none => none

/-! ## Connection lifecycle (src/hooks/useWebSocket.ts, connect /
onclose / cleanup) -/

/-- The asynchronous occurrences that drive the connection manager:
delivery of a socket close event to the (never detached) `onclose`
handler, firing of a scheduled reconnect timer, and the effect cleanup
(`clearTimeout` + `ws.close()`). -/
inductive ConnEvent where
  | closeEvt
  | timerFire
  | teardown
deriving DecidableEq, Repr

/-- Connection-manager state: how many times `connect()` has run (each
run constructs a socket), the `isConnected` flag, whether a reconnect
timer is pending and with which delay, whether the cleanup has run, and
whether the cleanup called `close()` on the current socket. -/
structure ConnMgrState where
  socketsCreated : ℕ
  isConnected : Bool
  reconnectScheduled : Bool
  reconnectDelayMs : ℕ
  tornDown : Bool
  closeRequested : Bool
deriving DecidableEq, Repr

/-- Model of `connect()`: constructs a new `WebSocket` and installs handlers. -/
def connectStep (st : ConnMgrState) : ConnMgrState :=
  { st with socketsCreated := st.socketsCreated + 1 }

/-- The `ws.onclose` handler body: mark disconnected and schedule one
reconnect via `setTimeout(connect, 3000)`. -/
def oncloseStep (st : ConnMgrState) : ConnMgrState :=
  { st with isConnected := false, reconnectScheduled := true, reconnectDelayMs := 3000 }

/-- One event of the connection lifecycle.  A delivered close event
always runs the handler — the source never detaches `onclose`, so it
runs even after the cleanup.  A timer fires only if still scheduled
(`clearTimeout` cancels it).  The cleanup clears any pending timer and
requests `close()` on the current socket. -/
def connStep (st : ConnMgrState) (e : ConnEvent) : ConnMgrState :=
  match e with
  | ConnEvent.closeEvt => oncloseStep st
  | ConnEvent.timerFire =>
      if st.reconnectScheduled then connectStep { st with reconnectScheduled := false } else st
  | ConnEvent.teardown =>
      { st with reconnectScheduled := false, tornDown := true, closeRequested := true }

/-- Run a sequence of lifecycle events. -/
def connRun (st : ConnMgrState) (es : List ConnEvent) : ConnMgrState :=
  es.foldl connStep st

/-- Mount: the effect body runs `connect()` once. -/
def connInit : ConnMgrState :=
  connectStep ⟨0, false, false, 3000, false, false⟩

end OrbitalNexus

namespace OrbitalNexus

/-! ## First theorems: store merge behaviour (claims C1, C4) -/

/-- C1 (counterexample): the store does not reject the out-of-table
transition `DELIVERED → QUEUED`.  Merging a frame that reports bundle
`b1` as `QUEUED` after the stored snapshot had it `DELIVERED` changes
the stored status (and custodian and hops), so the transition is
applied, not rejected. -/
theorem mergeFrame_applies_invalid_transition :
    storedStatus (some snapDelivered) "b1" = some BundleStatus.DELIVERED ∧
    storedStatus (mergeFrame (some snapDelivered) (Frame.orbitalUpdate snapRequeued)) "b1"
      = some BundleStatus.QUEUED ∧
    mergeFrame (some snapDelivered) (Frame.orbitalUpdate snapRequeued) ≠ some snapDelivered := by
  refine ⟨rfl, rfl, fun h => ?_⟩
  have h1 : some BundleStatus.DELIVERED = some BundleStatus.QUEUED := by
    calc some BundleStatus.DELIVERED
        = storedStatus (some snapDelivered) "b1" := rfl
      _ = storedStatus (mergeFrame (some snapDelivered) (Frame.orbitalUpdate snapRequeued)) "b1" := by
          rw [h]
      _ = some BundleStatus.QUEUED := rfl
  simp at h1

/-- C1 (amended): the store performs a full-replace merge with no
transition validation: after processing any `orbital_update` frame the
stored snapshot is exactly the frame's payload, so a bundle's stored
status, custodian and hops equal the frame's values, whatever the
previous state was. -/
theorem mergeFrame_full_replace (s : Option OrbitalData) (d : OrbitalData) :
    mergeFrame s (Frame.orbitalUpdate d) = some d ∧
    ∀ id : String, storedStatus (mergeFrame s (Frame.orbitalUpdate d)) id
      = (findBundle d id).map DTNBundle.status := by
  exact ⟨rfl, fun _ => rfl⟩

/-- C4: merging the same `orbital_update` frame twice in a row is
idempotent — the snapshot after the second merge is identical to the
snapshot after the first merge, for every frame and starting state. -/
theorem mergeFrame_idempotent (s : Option OrbitalData) (f : Frame) :
    mergeFrame (mergeFrame s f) f = mergeFrame s f := by
  cases f <;> rfl

/-- C3: starting from the configured initial active station `toronto`,
the frame sequence toronto, toronto, london, london, toronto yields a
handoff count of exactly 2 (and toronto as the final active station);
moreover a frame repeating the current active station never increments
the counter. -/
theorem handoff_count_two :
    runHandoffs ("toronto", 0)
        [some "toronto", some "toronto", some "london", some "london", some "toronto"]
      = ("toronto", 2) ∧
    ∀ (cur : String) (count : ℕ), handoffStep (cur, count) (some cur) = (cur, count) := by
  constructor
  · rfl
  · intro cur count
    simp [handoffStep]

/-- C7: with no link status or with `connection_state = IDLE`, the
throughput estimator returns exactly `(0, 0)`, for every SNR value and
every pair of random jitter samples. -/
theorem bandwidth_idle_zero (ls : Option LinkStatus) (ru rd : ℚ)
    (h : ls = none ∨ ∃ l, ls = some l ∧ l.connection_state = ConnectionState.IDLE) :
    computeBandwidth ls ru rd = (0, 0) := by
  rcases h with h | ⟨l, rfl, hl⟩
  · rw [h]; rfl
  · simp [computeBandwidth, hl]

/-- Witness for `bandwidth_idle_zero` at the concrete input `none`. -/
theorem bandwidth_idle_zero_witness :
    computeBandwidth none (1/2) (1/2) = (0, 0) :=
  bandwidth_idle_zero none (1/2) (1/2) (Or.inl rfl)

/-- C2 (counterexample): the source's `ACQUIRED` factor is *not*
clamped below at 0.  At `snr_db = -50` with the midpoint random sample
(zero jitter) the code outputs uplink 0, which no jitter of magnitude
at most 0.25 can reconcile with the spec's clamped-factor formula
(whose value is at least 0.95). -/
theorem bandwidth_acquired_not_clamped_below :
    (computeBandwidth (some lsNegSnr) (1/2) (1/2)).1 = 0 ∧
    ¬ ∃ j : ℚ, |j| ≤ 0.25 ∧
        (computeBandwidth (some lsNegSnr) (1/2) (1/2)).1
          = max 0 (1.2 + specClampedFactorAcquired (-50) * 8.8 + j) := by
  have h0 : (computeBandwidth (some lsNegSnr) (1/2) (1/2)).1 = 0 := by
    simp only [computeBandwidth, lsNegSnr]
    norm_num [min_def, max_def]
  refine ⟨h0, ?_⟩
  rintro ⟨j, hj, he⟩
  rw [abs_le] at hj
  rw [h0] at he
  have hs : specClampedFactorAcquired (-50) = 0 := by
    norm_num [specClampedFactorAcquired, min_def, max_def]
  rw [hs] at he
  have hle : (1.2 : ℚ) + 0 * 8.8 + j ≤ max 0 (1.2 + 0 * 8.8 + j) := le_max_right _ _
  rw [← he] at hle
  linarith [hj.1]

/-- C2 (amended): for an `ACQUIRED` link the estimator returns
`uplink = max 0 (1.2 + factor·8.8 + ju)` and
`downlink = max 0 (3 + factor·22 + jd)` where
`factor = min ((snr_db − 10)/30) 1` (clamped above only), with jitters
`|ju| ≤ 0.25` and `|jd| ≤ 0.75`; in particular for `snr_db = 25` the
uplink lies in [5.35, 5.85] and the downlink in [13.25, 14.75]. -/
theorem bandwidth_acquired_formula (l : LinkStatus) (ru rd : ℚ)
    (hcs : l.connection_state = ConnectionState.ACQUIRED)
    (hru0 : 0 ≤ ru) (hru1 : ru ≤ 1) (hrd0 : 0 ≤ rd) (hrd1 : rd ≤ 1) :
    ∃ ju jd : ℚ, |ju| ≤ 0.25 ∧ |jd| ≤ 0.75 ∧
      computeBandwidth (some l) ru rd
        = (max 0 (1.2 + min ((l.snr_db - 10) / 30) 1 * 8.8 + ju),
           max 0 (3 + min ((l.snr_db - 10) / 30) 1 * 22 + jd)) ∧
      (l.snr_db = 25 →
        5.35 ≤ (computeBandwidth (some l) ru rd).1 ∧
        (computeBandwidth (some l) ru rd).1 ≤ 5.85 ∧
        13.25 ≤ (computeBandwidth (some l) ru rd).2 ∧
        (computeBandwidth (some l) ru rd).2 ≤ 14.75) := by
  refine ⟨(ru - 0.5) * 0.5, (rd - 0.5) * 1.5, ?_, ?_, ?_, ?_⟩
  · rw [abs_le]; constructor <;> nlinarith
  · rw [abs_le]; constructor <;> nlinarith
  · simp [computeBandwidth, hcs]
  · intro h25
    have hmin : min ((l.snr_db - 10) / 30) 1 = 1/2 := by
      rw [h25]; norm_num [min_def]
    simp only [computeBandwidth, hcs, hmin]
    have hu : (0 : ℚ) ≤ 1.2 + 1/2 * 8.8 + (ru - 0.5) * 0.5 := by nlinarith
    have hd : (0 : ℚ) ≤ 3 + 1/2 * 22 + (rd - 0.5) * 1.5 := by nlinarith
    rw [max_eq_right hu, max_eq_right hd]
    refine ⟨by nlinarith, by nlinarith, by nlinarith, by nlinarith⟩

/-- Witness for `bandwidth_acquired_formula` at the concrete
`ACQUIRED`, 25 dB link status with midpoint random samples. -/
theorem bandwidth_acquired_formula_witness :
    ∃ ju jd : ℚ, |ju| ≤ 0.25 ∧ |jd| ≤ 0.75 ∧
      computeBandwidth (some lsAcquired25) (1/2) (1/2)
        = (max 0 (1.2 + min ((lsAcquired25.snr_db - 10) / 30) 1 * 8.8 + ju),
           max 0 (3 + min ((lsAcquired25.snr_db - 10) / 30) 1 * 22 + jd)) ∧
      (lsAcquired25.snr_db = 25 →
        5.35 ≤ (computeBandwidth (some lsAcquired25) (1/2) (1/2)).1 ∧
        (computeBandwidth (some lsAcquired25) (1/2) (1/2)).1 ≤ 5.85 ∧
        13.25 ≤ (computeBandwidth (some lsAcquired25) (1/2) (1/2)).2 ∧
        (computeBandwidth (some lsAcquired25) (1/2) (1/2)).2 ≤ 14.75) :=
  bandwidth_acquired_formula lsAcquired25 (1/2) (1/2) rfl
    (by norm_num) (by norm_num) (by norm_num) (by norm_num)

/-! ## Rolling-buffer lemmas (claim C5) -/

theorem sliceLast_eq_rtake (N : ℕ) (l : List α) : sliceLast N l = l.rtake N := rfl

theorem sliceLast_of_le (N : ℕ) (l : List α) (h : l.length ≤ N) :
    sliceLast N l = l := by
  unfold sliceLast
  rw [Nat.sub_eq_zero_of_le h, List.drop_zero]

theorem length_sliceLast_le (N : ℕ) (l : List α) : (sliceLast N l).length ≤ N := by
  simp only [sliceLast, List.length_drop]
  omega

theorem take_append_take (N : ℕ) (s t : List α) :
    (s ++ t.take N).take N = (s ++ t).take N := by
  rw [List.take_append_eq_append_take, List.take_append_eq_append_take,
    List.take_take, Nat.min_eq_left (Nat.sub_le _ _)]

theorem sliceLast_sliceLast_append (N : ℕ) (l m : List α) :
    sliceLast N (sliceLast N l ++ m) = sliceLast N (l ++ m) := by
  rw [sliceLast_eq_rtake, sliceLast_eq_rtake, sliceLast_eq_rtake,
    List.rtake_eq_reverse_take_reverse, List.rtake_eq_reverse_take_reverse,
    List.rtake_eq_reverse_take_reverse]
  rw [List.reverse_append, List.reverse_reverse, List.reverse_append]
  rw [take_append_take]

theorem foldl_rollPush (N : ℕ) (vs : List α) :
    ∀ buf : List α, buf.length ≤ N →
      List.foldl (rollPush N) buf vs = sliceLast N (buf ++ vs) := by
  induction vs with
  | nil =>
      intro buf hbuf
      rw [List.foldl_nil, List.append_nil, sliceLast_of_le _ _ hbuf]
  | cons v vs ih =>
      intro buf hbuf
      rw [List.foldl_cons]
      rw [ih (rollPush N buf v) (length_sliceLast_le _ _)]
      show sliceLast N (sliceLast N (buf ++ [v]) ++ vs) = _
      rw [sliceLast_sliceLast_append, List.append_assoc]
      rfl

theorem foldl_shiftPush (N : ℕ) (hN : 1 ≤ N) (vs : List α) :
    ∀ buf : List α, buf.length = N →
      List.foldl shiftPush buf vs = sliceLast N (buf ++ vs) := by
  induction vs with
  | nil =>
      intro buf hbuf
      rw [List.foldl_nil, List.append_nil, sliceLast_of_le _ _ (le_of_eq hbuf)]
  | cons v vs ih =>
      intro buf hbuf
      rw [List.foldl_cons]
      have hstep : shiftPush buf v = sliceLast N (buf ++ [v]) := by
        unfold shiftPush sliceLast
        rw [List.length_append, hbuf, List.length_singleton,
          Nat.add_sub_cancel_left, List.drop_append_eq_append_drop]
        congr 1
        rw [hbuf, Nat.sub_eq_zero_of_le hN, List.drop_zero]
      have hlen : (shiftPush buf v).length = N := by
        rw [hstep]
        simp only [sliceLast, List.length_drop, List.length_append, hbuf,
          List.length_singleton]
        omega
      rw [ih _ hlen, hstep, sliceLast_sliceLast_append, List.append_assoc]
      rfl

theorem sliceLast_of_length_add (N k : ℕ) (vs : List α) (h : vs.length = N + k) :
    sliceLast N vs = vs.drop k := by
  unfold sliceLast
  rw [h, Nat.add_sub_cancel_left]

/-- C5: a rolling buffer of capacity `N` fed `N + k` pushes (starting
empty, as the SkyView trail does) holds exactly the last `N` pushed
values in insertion order, hence has length `N`; no sequence of pushes
ever makes it exceed capacity `N`.  The pre-filled shift buffer used
for the 1800-sample signal history (`shiftPush`, starting from a full
length-`N` buffer) satisfies the same property: after `N + k` pushes it
equals the last `N` pushed values, and its length is always exactly
`N`. -/
theorem rolling_buffer_capacity (α : Type) (N k : ℕ) (vs init : List α)
    (hvs : vs.length = N + k) (hinit : init.length = N) :
    List.foldl (rollPush N) [] vs = vs.drop k ∧
    (List.foldl (rollPush N) [] vs).length = N ∧
    (∀ ws : List α, (List.foldl (rollPush N) [] ws).length ≤ N) ∧
    (1 ≤ N → List.foldl shiftPush init vs = vs.drop k) ∧
    (1 ≤ N → ∀ ws : List α, (List.foldl shiftPush init ws).length = N) := by
  have hroll : List.foldl (rollPush N) [] vs = vs.drop k := by
    rw [foldl_rollPush N vs [] (Nat.zero_le N), List.nil_append,
      sliceLast_of_length_add N k vs hvs]
  refine ⟨hroll, ?_, ?_, ?_, ?_⟩
  · rw [hroll, List.length_drop, hvs]
    omega
  · intro ws
    rw [foldl_rollPush N ws [] (Nat.zero_le N), List.nil_append]
    exact length_sliceLast_le N ws
  · intro hN
    rw [foldl_shiftPush N hN vs init hinit]
    unfold sliceLast
    rw [List.length_append, hinit, hvs]
    rw [List.drop_append_eq_append_drop]
    have h1 : init.length ≤ N + (N + k) - N := by omega
    rw [List.drop_eq_nil_of_le (by omega), List.nil_append, hinit]
    congr 1
    omega
  · intro hN ws
    rw [foldl_shiftPush N hN ws init hinit]
    simp only [sliceLast, List.length_drop, List.length_append, hinit]
    omega

/-- Witness for `rolling_buffer_capacity`: capacity 2, three pushes. -/
theorem rolling_buffer_capacity_witness :
    List.foldl (rollPush 2) [] [(1 : ℚ), 2, 3] = [(1 : ℚ), 2, 3].drop 1 ∧
    (List.foldl (rollPush 2) [] [(1 : ℚ), 2, 3]).length = 2 ∧
    (∀ ws : List ℚ, (List.foldl (rollPush 2) [] ws).length ≤ 2) ∧
    (1 ≤ 2 → List.foldl shiftPush [(5 : ℚ), 6] [(1 : ℚ), 2, 3] = [(1 : ℚ), 2, 3].drop 1) ∧
    (1 ≤ 2 → ∀ ws : List ℚ, (List.foldl shiftPush [(5 : ℚ), 6] ws).length = 2) :=
  rolling_buffer_capacity ℚ 2 1 [1, 2, 3] [5, 6] (by decide) (by decide)

/-! ## Uptime (claim C6) -/

theorem history9_count : (history9.filter id).length = 9 := by
  rw [history9, List.filter_append, List.filter_replicate_of_pos rfl,
    List.filter_replicate_of_neg (by simp), List.append_nil, List.length_replicate]

theorem history9_length : history9.length = 1800 := by
  rw [history9, List.length_append, List.length_replicate, List.length_replicate]

/-- C6 (counterexample): for the 1800-slot history with exactly 9
`true` entries, `calculateUptime` returns 1 (percent), while the
unrounded percentage `count(true)/1800 · 100` is 1/2 — so the uptime
shown does not equal `count(true)/1800` as a percentage. -/
theorem uptime_nine_rounds_to_one :
    calculateUptime history9 = 1 ∧
    ((history9.filter id).length : ℚ) / (history9.length : ℚ) * 100 = 1/2 ∧
    ((calculateUptime history9 : ℚ) ≠
      ((history9.filter id).length : ℚ) / (history9.length : ℚ) * 100) := by
  have hhalf : ((history9.filter id).length : ℚ) / (history9.length : ℚ) * 100 = 1/2 := by
    rw [history9_count, history9_length]
    norm_num
  have hone : calculateUptime history9 = 1 := by
    unfold calculateUptime jsRound
    rw [hhalf]
    norm_num
  refine ⟨hone, hhalf, ?_⟩
  rw [hone, hhalf]
  norm_num

/-- C6 (amended): the uptime percentage is `Math.round` of
`count(true)/length · 100`; any 1800-slot history with exactly 9 `true`
entries yields uptime 1 (percent), not 0.5. -/
theorem uptime_of_nine_true (h : List Bool) (hlen : h.length = 1800)
    (hcount : (h.filter id).length = 9) :
    calculateUptime h = 1 := by
  unfold calculateUptime jsRound
  rw [hlen, hcount]
  norm_num

/-- Witness for `uptime_of_nine_true` at the concrete history. -/
theorem uptime_of_nine_true_witness :
    history9.length = 1800 ∧ calculateUptime history9 = 1 :=
  ⟨history9_length, uptime_of_nine_true history9 history9_length history9_count⟩

/-! ## Malformed frames (claim C8) -/

/-- C8: when the payload of an inbound message fails to parse as JSON
(`parse raw = none`, i.e. `JSON.parse` threw), the `onmessage` handler
leaves the hook state completely unchanged: the socket stays open, no
exception escapes (the function is total), `lastMessage` keeps its old
value, and therefore the snapshot the store derives is also
unchanged. -/
theorem malformed_frame_dropped (parse : String → Option Frame) (st : WSState)
    (raw : String) (h : parse raw = none) :
    onmessage parse st raw = st ∧
    (onmessage parse st raw).socketOpen = st.socketOpen ∧
    (onmessage parse st raw).lastMessage = st.lastMessage ∧
    ∀ snap : Option OrbitalData,
      snapshotOf snap (onmessage parse st raw).lastMessage = snapshotOf snap st.lastMessage := by
  have hst : onmessage parse st raw = st := by
    unfold onmessage
    rw [h]
  exact ⟨hst, by rw [hst], by rw [hst], fun snap => by rw [hst]⟩

/-- Witness for `malformed_frame_dropped`: a parser that rejects
everything, applied to a junk payload. -/
theorem malformed_frame_dropped_witness :
    onmessage (fun _ => none) stExample "not json" = stExample ∧
    (onmessage (fun _ => none) stExample "not json").socketOpen = stExample.socketOpen ∧
    (onmessage (fun _ => none) stExample "not json").lastMessage = stExample.lastMessage ∧
    ∀ snap : Option OrbitalData,
      snapshotOf snap (onmessage (fun _ => none) stExample "not json").lastMessage
        = snapshotOf snap stExample.lastMessage :=
  malformed_frame_dropped (fun _ => none) stExample "not json" rfl

/-! ## sendMessage guard (claim C10) -/

/-- C10: calling `sendMessage` with no socket, or with a socket whose
`readyState` is not `OPEN`, is a silent no-op: the socket state
(including its list of sent messages) is exactly unchanged, so nothing
is sent and nothing is queued for later delivery. -/
theorem sendMessage_noop (ws : Option WebSocketConn) (m : String)
    (h : ws = none ∨ ∃ w, ws = some w ∧ w.readyState ≠ ReadyState.OPEN) :
    sendMessage ws m = ws := by
  rcases h with rfl | ⟨w, rfl, hw⟩
  · rfl
  · simp [sendMessage, hw]

/-- Witness for `sendMessage_noop` at a closed socket. -/
theorem sendMessage_noop_witness :
    sendMessage (some ⟨ReadyState.CLOSED, []⟩) "ping" = some ⟨ReadyState.CLOSED, []⟩ :=
  sendMessage_noop (some ⟨ReadyState.CLOSED, []⟩) "ping"
    (Or.inr ⟨⟨ReadyState.CLOSED, []⟩, rfl, by decide⟩)

/-! ## Reconnect after teardown (claim C9) -/

/-- C9 (code behaviour at the failing input): every close event
schedules exactly one reconnect with the fixed 3000 ms delay, and the
cleanup does clear a pending timer — but because the `onclose` handler
is never detached, the close event caused by the cleanup's own
`ws.close()` schedules a *new* reconnect after teardown, and when that
timer fires `connect()` constructs a second socket.  So a reconnect
does occur after teardown, contrary to the claim. -/
theorem reconnect_scheduled_after_teardown :
    (connRun connInit [ConnEvent.teardown]).reconnectScheduled = false ∧
    (connRun connInit [ConnEvent.teardown]).closeRequested = true ∧
    (connRun connInit [ConnEvent.teardown, ConnEvent.closeEvt]).reconnectScheduled = true ∧
    (connRun connInit [ConnEvent.teardown, ConnEvent.closeEvt]).tornDown = true ∧
    (connRun connInit [ConnEvent.teardown, ConnEvent.closeEvt,
        ConnEvent.timerFire]).socketsCreated = 2 ∧
    ∀ st : ConnMgrState,
      (connStep st ConnEvent.closeEvt).reconnectScheduled = true ∧
      (connStep st ConnEvent.closeEvt).reconnectDelayMs = 3000 :=
  ⟨rfl, rfl, rfl, rfl, rfl, fun _ => ⟨rfl, rfl⟩⟩

end OrbitalNexus
